import Mathlib

/-!
Verification of the command-dispatch layer of the `ai00_rwkv_server` gateway.

The development shallowly embeds the HTTP handlers of
`crates/ai00-server/src/api/model.rs` (`info`, `load`, `unload`,
`load_state`, `save`) and `src/api/oai/embedding.rs` (`embeddings`).
Channels are modelled by explicit parameters: the sandbox resolver
`build_path` is a parameter `bp : String → Option String`, the worker's
reply on a result channel is an `Option Bool` (`none` models a closed
channel with no reply), and a generation session's token stream is a
finite list of token events.
-/

/-- Opaque identifier of a registered initial state (`run::StateId`);
only copied by the handlers, never inspected. -/
structure StateId where
  uid : Nat
deriving DecidableEq

/-- One LoRA adapter entry of a `ReloadRequest` (`reload::Lora`).
The handlers only touch `path`; `alpha` stands for the remaining
blend payload, carried through unchanged. -/
structure LoraEntry where
  path : String
  alpha : Nat := 0
deriving DecidableEq

/-- One initial-state entry (`reload::State`): a path to load from and a
human-readable name.  Used both inside `ReloadRequest.state` and as the
body of `POST /api/models/state/load`. -/
structure StateEntry where
  path : String
  name : String
deriving DecidableEq

/-- The reload configuration sent to `POST /api/models/load`
(`ai00_core::ReloadRequest`), restricted to the fields the handlers
read or rewrite: the model path and the LoRA / initial-state lists. -/
structure ReloadRequest where
  model_path : String
  lora : List LoraEntry
  state : List StateEntry
deriving DecidableEq

/-- Body of `POST /api/models/save` (`ai00_core::SaveRequest`). -/
structure SaveRequest where
  path : String
deriving DecidableEq

/-- Opaque model metadata (`web_rwkv::runtime::model::ModelInfo`);
carried through the info handler unchanged. -/
structure ModelInfo where
  payload : String
deriving DecidableEq

/-- A registered initial state (`run::InitState`): its name plus the
backing tensor data, the latter opaque to the handlers. -/
structure InitState where
  name : String
  backing : List Nat
deriving DecidableEq

/-- Token usage counters (`middleware::TokenCounter`).
Modelled from the spec: the struct itself lives outside the three
embedded files; §3 gives `{prompt_tokens, completion_tokens,
total_tokens}` and its `Default` is all-zero. -/
structure TokenCounter where
  prompt_tokens : Nat := 0
  completion_tokens : Nat := 0
  total_tokens : Nat := 0
deriving DecidableEq

/-- A generation request (`middleware::GenerateRequest`).
Modelled from the spec: the struct lives outside the embedded files;
§3 gives `{prompt, max_tokens, stop_conditions, embed, embed_layer,
sampling_params}`.  Only the four fields set by the embedding
conversion matter to the claims; the rest take their defaults. -/
structure GenerateRequest where
  prompt : String := ""
  max_tokens : Nat := 0
  stop_conditions : List String := []
  embed : Bool := false
  embed_layer : Nat := 0
  sampling : Nat := 0
deriving DecidableEq

/-- Body of `POST /api/oai/embeddings`: the input texts (the `Vec` form
of the `Array<String>` serde type) and the layer to embed at. -/
structure EmbeddingRequest where
  input : List String := []
  embed_layer : Nat := 0
deriving DecidableEq

/-- A token event on a session's output channel.
Modelled from the spec: the `Token` enum lives outside the embedded
files; §3 gives `Content(text)`, `Embed(vector)`, `Stop(reason,
counter)`, `Error(kind)`.  The vector element type `α` (`f32` in the
code) is abstract: the handler only moves vectors, never computes with
them. -/
inductive Token (α : Type) where
  | content (t : String)
  | stop (reason : String) (counter : TokenCounter)
  | embed (v : List α)
  | err (kind : String)
deriving DecidableEq

/-- The runtime snapshot (`RuntimeInfo`) as destructured by the
handlers: the current reload configuration, model metadata, the
registry of initial states, and a tokenizer reference (opaque). -/
structure RuntimeInfo where
  reload : ReloadRequest
  model : ModelInfo
  states : List (StateId × InitState)
  tokenizer : Nat
deriving DecidableEq

/-- A command on the Command Channel (`ThreadRequest`).  Result
channels are modelled outside the command, by each handler's `reply`
parameter. -/
inductive ThreadRequest where
  | reload (request : ReloadRequest)
  | unload
  | stateLoad (request : StateEntry)
  | save (request : SaveRequest)
  | generate (request : GenerateRequest) (tokenizer : Nat)
  | queryInfo
deriving DecidableEq

/-- What a handler invocation ends in: an HTTP status code, or a panic
(the `unwrap()` on a result channel that closed with no reply). -/
inductive HandlerOutcome where
  | status (code : Nat)
  | panicked
deriving DecidableEq

/-- Awaiting `result_receiver.recv_async().await.unwrap()` and mapping
the boolean reply: `true → 200`, `false → 500`; a closed channel
(`none`) makes the `unwrap()` panic. -/
def awaitResult : Option Bool → HandlerOutcome
  | some true => .status 200
  | some false => .status 500
  | none => .panicked

/-- The `for x in request.lora.iter_mut()` loop of `load`: rewrite each
entry's path through `build_path`, returning `NOT_FOUND` (here `none`)
at the first failure. -/
def rewriteLoraPaths (bp : String → Option String) : List LoraEntry → Option (List LoraEntry)
  | [] => some []
  | x :: xs =>
    match bp x.path with
    | none => none
    | some p =>
      match rewriteLoraPaths bp xs with
      | none => none
      | some ys => some ({ x with path := p } :: ys)

/-- The `for x in request.state.iter_mut()` loop of `load`, likewise. -/
def rewriteStatePaths (bp : String → Option String) : List StateEntry → Option (List StateEntry)
  | [] => some []
  | x :: xs =>
    match bp x.path with
    | none => none
    | some p =>
      match rewriteStatePaths bp xs with
      | none => none
      | some ys => some ({ x with path := p } :: ys)

/-- The path-sanitizing phase of `load`: `build_path` on the model
path, then every LoRA path, then every initial-state path, in order,
failing at the first rejection. -/
def loadSanitize (bp : String → Option String) (req : ReloadRequest) : Option ReloadRequest :=
  match bp req.model_path with
  | none => none
  | some mp =>
    match rewriteLoraPaths bp req.lora with
    | none => none
    | some ls =>
      match rewriteStatePaths bp req.state with
      | none => none
      | some ss => some { req with model_path := mp, lora := ls, state := ss }

/-- The `load` handler (`POST /api/models/load`): sanitize all paths
(404 on any rejection, sending nothing), else send
`ThreadRequest::Reload` with the rewritten request and map the worker's
reply.  Returns the command sent (if any) and the outcome. -/
def loadHandler (bp : String → Option String) (req : ReloadRequest) (reply : Option Bool) :
    Option ThreadRequest × HandlerOutcome :=
  match loadSanitize bp req with
  | none => (none, .status 404)
  | some r => (some (.reload r), awaitResult reply)

/-- The `load_state` handler (`POST /api/models/state/load`). -/
def loadStateHandler (bp : String → Option String) (req : StateEntry) (reply : Option Bool) :
    Option ThreadRequest × HandlerOutcome :=
  match bp req.path with
  | none => (none, .status 404)
  | some p => (some (.stateLoad { req with path := p }), awaitResult reply)

/-- The `save` handler (`POST /api/models/save`). -/
def saveHandler (bp : String → Option String) (req : SaveRequest) (reply : Option Bool) :
    Option ThreadRequest × HandlerOutcome :=
  match bp req.path with
  | none => (none, .status 404)
  | some p => (some (.save { path := p }), awaitResult reply)

/-- The `id`/`name` projection of one registered initial state, as the
info handler serializes it (`InitStateInfo`). -/
structure InitStateInfo where
  id : StateId
  name : String
deriving DecidableEq

/-- The body of `GET /api/models/info` (`InfoResponse`): exactly the
fields `reload`, `model` and `states`. -/
structure InfoResponse where
  reload : ReloadRequest
  model : ModelInfo
  states : List InitStateInfo
deriving DecidableEq

/-- The `info` handler (`GET /api/models/info`), applied to the
`RuntimeInfo` snapshot obtained from `request_info`: pass `reload` and
`model` through and project each registered state to `{id, name}`. -/
def infoHandler (ri : RuntimeInfo) : InfoResponse :=
  { reload := ri.reload
    model := ri.model
    states := ri.states.map fun p => { id := p.1, name := p.2.name } }

/-- Worker liveness as observed by `try_request_info`.
Modelled from the spec: `try_request_info` and the worker loop
(`model_route`) are outside the embedded files; §4.3 says it fails
once the worker has exited (after `Unload` drains fully). -/
inductive WorkerLiveness where
  | present
  | absent
deriving DecidableEq

/-- Whether `try_request_info(...).is_ok()` holds against a given
worker liveness.  Modelled from the spec (§4.3). -/
def tryRequestInfoOk : WorkerLiveness → Bool
  | .present => true
  | .absent => false

/-- The worker liveness seen by the `i`-th poll after `Unload` was
sent.  Modelled from the spec (§4.1, §4.3): the worker drains
in-flight work and processes `Unload` in FIFO order, becoming absent
from some poll `d` on; a worker already absent stays absent. -/
def pollLiveness (w : WorkerLiveness) (d i : Nat) : WorkerLiveness :=
  match w with
  | .absent => .absent
  | .present => if i < d then .present else .absent

/-- The `while try_request_info(sender.clone()).await.is_ok() {}` loop
of `unload`, polling from index `i`; returns the index of the first
failing poll. -/
def unloadLoop (w : WorkerLiveness) (d i : Nat) : Nat :=
  if h : tryRequestInfoOk (pollLiveness w d i) = true then unloadLoop w d (i + 1) else i
termination_by d - i
decreasing_by
  cases w with
  | absent => simp [pollLiveness, tryRequestInfoOk] at h
  | present =>
    simp only [pollLiveness] at h
    split at h
    · omega
    · simp [tryRequestInfoOk] at h

/-- Everything observable about one `unload` invocation: the command it
sends, how many successful polls it made, the status it returns, and
the worker liveness at the moment it returns. -/
structure UnloadResult where
  sent : ThreadRequest
  pollCount : Nat
  code : Nat
  worker : WorkerLiveness
deriving DecidableEq

/-- The `unload` handler (`GET /api/models/unload`): send
`ThreadRequest::Unload`, poll `try_request_info` until it fails, then
return 200.  `w` is the worker liveness on entry; `d` is the number of
polls the drain takes when the worker is present. -/
def unloadHandler (w : WorkerLiveness) (d : Nat) : UnloadResult :=
  let k := unloadLoop w d 0
  { sent := .unload, pollCount := k, code := 200, worker := pollLiveness w d k }

/-- `From<EmbeddingRequest> for GenerateRequest`: join the input texts
with the empty separator, force `max_tokens = 1` and `embed = true`,
copy `embed_layer`, default the rest. -/
def generateOfEmbedding (r : EmbeddingRequest) : GenerateRequest :=
  { prompt := String.intercalate "" r.input
    max_tokens := 1
    embed := true
    embed_layer := r.embed_layer }

/-- The `while let Some(token) = stream.next().await` loop of
`embeddings`: a `Stop` records its counter and continues, the first
`Embed` returns its vector and breaks, everything else is skipped;
channel exhaustion returns the accumulators. -/
def embedFold {α : Type} : List (Token α) → TokenCounter → List α → TokenCounter × List α
  | [], c, e => (c, e)
  | .stop _ ctr :: rest, _, e => embedFold rest ctr e
  | .embed v :: _, c, _ => (c, v)
  | .content _ :: rest, c, e => embedFold rest c e
  | .err _ :: rest, c, e => embedFold rest c e

/-- One entry of the embeddings response (`EmbeddingData`). -/
structure EmbeddingData (α : Type) where
  object : String
  index : Nat
  embedding : List α
deriving DecidableEq

/-- The body of `POST /api/oai/embeddings` (`EmbeddingResponse`); the
`counter` field is serialized as `usage`. -/
structure EmbeddingResponse (α : Type) where
  object : String
  model : String
  data : List (EmbeddingData α)
  counter : TokenCounter
deriving DecidableEq

/-- The `embeddings` handler (`POST /api/oai/embeddings`): take the
model path string from the `request_info` snapshot, send a `Generate`
command built from the request, consume the token stream, and build
the response around the single collected embedding. -/
def embeddingsHandler {α : Type} (ri : RuntimeInfo) (req : EmbeddingRequest)
    (stream : List (Token α)) : ThreadRequest × EmbeddingResponse α :=
  let r := embedFold stream {} []
  (.generate (generateOfEmbedding req) ri.tokenizer,
   { object := "list"
     model := ri.reload.model_path
     data := [{ object := "embedding", index := 0, embedding := r.2 }]
     counter := r.1 })

/-- The first `Embed` event's vector in a stream, if any. -/
def firstEmbed {α : Type} : List (Token α) → Option (List α)
  | [] => none
  | .embed v :: _ => some v
  | .content _ :: rest => firstEmbed rest
  | .stop _ _ :: rest => firstEmbed rest
  | .err _ :: rest => firstEmbed rest

/-- Whether a token event is a `Stop`. -/
def Token.isStop {α : Type} : Token α → Bool
  | .stop _ _ => true
  | _ => false

theorem rewriteLoraPaths_eq_none_iff (bp : String → Option String) (l : List LoraEntry) :
    rewriteLoraPaths bp l = none ↔ ∃ x ∈ l, bp x.path = none := by
  induction l with
  | nil => simp [rewriteLoraPaths]
  | cons x xs ih =>
    cases hx : bp x.path with
    | none => simp [rewriteLoraPaths, hx]
    | some p =>
      cases hr : rewriteLoraPaths bp xs with
      | none =>
        simp only [rewriteLoraPaths, hx, hr]
        simpa [hx] using ih.mp hr
      | some ys =>
        simp only [rewriteLoraPaths, hx, hr]
        constructor
        · intro h
          exact absurd h (by simp)
        · rintro ⟨y, hy, hbp⟩
          rcases List.mem_cons.mp hy with rfl | hy
          · exact absurd hbp (by simp [hx])
          · exact absurd (ih.mpr ⟨y, hy, hbp⟩) (by simp [hr])

theorem rewriteStatePaths_eq_none_iff (bp : String → Option String) (l : List StateEntry) :
    rewriteStatePaths bp l = none ↔ ∃ x ∈ l, bp x.path = none := by
  induction l with
  | nil => simp [rewriteStatePaths]
  | cons x xs ih =>
    cases hx : bp x.path with
    | none => simp [rewriteStatePaths, hx]
    | some p =>
      cases hr : rewriteStatePaths bp xs with
      | none =>
        simp only [rewriteStatePaths, hx, hr]
        simpa [hx] using ih.mp hr
      | some ys =>
        simp only [rewriteStatePaths, hx, hr]
        constructor
        · intro h
          exact absurd h (by simp)
        · rintro ⟨y, hy, hbp⟩
          rcases List.mem_cons.mp hy with rfl | hy
          · exact absurd hbp (by simp [hx])
          · exact absurd (ih.mpr ⟨y, hy, hbp⟩) (by simp [hr])

theorem loadSanitize_eq_none_iff (bp : String → Option String) (req : ReloadRequest) :
    loadSanitize bp req = none ↔
      bp req.model_path = none ∨ (∃ x ∈ req.lora, bp x.path = none) ∨
        (∃ x ∈ req.state, bp x.path = none) := by
  unfold loadSanitize
  cases hm : bp req.model_path with
  | none => simp [hm]
  | some mp =>
    cases hl : rewriteLoraPaths bp req.lora with
    | none => simp [hm, hl, (rewriteLoraPaths_eq_none_iff bp req.lora).mp hl]
    | some ls =>
      cases hs : rewriteStatePaths bp req.state with
      | none => simp [hm, hl, hs, (rewriteStatePaths_eq_none_iff bp req.state).mp hs]
      | some ss =>
        have h1 : ¬∃ x ∈ req.lora, bp x.path = none := fun h =>
          by simp [(rewriteLoraPaths_eq_none_iff bp req.lora).mpr h] at hl
        have h2 : ¬∃ x ∈ req.state, bp x.path = none := fun h =>
          by simp [(rewriteStatePaths_eq_none_iff bp req.state).mpr h] at hs
        simp [hm, hl, hs, h1, h2]

theorem loadSanitize_eq_some (bp : String → Option String) (req r : ReloadRequest)
    (h : loadSanitize bp req = some r) :
    bp req.model_path = some r.model_path ∧
      rewriteLoraPaths bp req.lora = some r.lora ∧
      rewriteStatePaths bp req.state = some r.state := by
  unfold loadSanitize at h
  cases hm : bp req.model_path with
  | none => simp [hm] at h
  | some mp =>
    cases hl : rewriteLoraPaths bp req.lora with
    | none => simp [hm, hl] at h
    | some ls =>
      cases hs : rewriteStatePaths bp req.state with
      | none => simp [hm, hl, hs] at h
      | some ss =>
        simp only [hm, hl, hs, Option.some.injEq] at h
        subst h
        exact ⟨rfl, rfl, rfl⟩

theorem rewriteLoraPaths_resolved (bp : String → Option String) (l l' : List LoraEntry)
    (h : rewriteLoraPaths bp l = some l') :
    List.Forall₂ (fun x y => bp x.path = some y.path) l l' := by
  induction l generalizing l' with
  | nil =>
    simp only [rewriteLoraPaths, Option.some.injEq] at h
    subst h
    exact List.Forall₂.nil
  | cons x xs ih =>
    cases hx : bp x.path with
    | none => simp [rewriteLoraPaths, hx] at h
    | some p =>
      cases hr : rewriteLoraPaths bp xs with
      | none => simp [rewriteLoraPaths, hx, hr] at h
      | some ys =>
        simp only [rewriteLoraPaths, hx, hr, Option.some.injEq] at h
        subst h
        exact List.Forall₂.cons (by simp [hx]) (ih ys hr)

theorem rewriteStatePaths_resolved (bp : String → Option String) (l l' : List StateEntry)
    (h : rewriteStatePaths bp l = some l') :
    List.Forall₂ (fun x y => bp x.path = some y.path) l l' := by
  induction l generalizing l' with
  | nil =>
    simp only [rewriteStatePaths, Option.some.injEq] at h
    subst h
    exact List.Forall₂.nil
  | cons x xs ih =>
    cases hx : bp x.path with
    | none => simp [rewriteStatePaths, hx] at h
    | some p =>
      cases hr : rewriteStatePaths bp xs with
      | none => simp [rewriteStatePaths, hx, hr] at h
      | some ys =>
        simp only [rewriteStatePaths, hx, hr, Option.some.injEq] at h
        subst h
        exact List.Forall₂.cons (by simp [hx]) (ih ys hr)

/-- A sample sandbox resolver used by witnesses: rejects the path
"bad", resolves everything else under "root/". -/
def bpSample (s : String) : Option String :=
  if s = "bad" then none else some ("root/" ++ s)

/-- C1: the load handler returns 404 exactly when sandbox resolution
fails for the model path, some LoRA path, or some initial-state path;
otherwise it returns 200 on a `true` worker reply and 500 on a `false`
one. -/
theorem load_status_codes (bp : String → Option String) (req : ReloadRequest) (b : Bool) :
    ((bp req.model_path = none ∨ (∃ x ∈ req.lora, bp x.path = none) ∨
        (∃ x ∈ req.state, bp x.path = none)) →
      (loadHandler bp req (some b)).2 = .status 404) ∧
    (¬(bp req.model_path = none ∨ (∃ x ∈ req.lora, bp x.path = none) ∨
        (∃ x ∈ req.state, bp x.path = none)) →
      (loadHandler bp req (some true)).2 = .status 200 ∧
        (loadHandler bp req (some false)).2 = .status 500) := by
  constructor
  · intro h
    have hn : loadSanitize bp req = none := (loadSanitize_eq_none_iff bp req).mpr h
    simp [loadHandler, hn]
  · intro h
    have hn : loadSanitize bp req ≠ none :=
      fun hc => h ((loadSanitize_eq_none_iff bp req).mp hc)
    rcases Option.ne_none_iff_exists.mp hn with ⟨r, hr⟩
    simp [loadHandler, ← hr, awaitResult]

/-- A sample reload request whose model path is rejected by
`bpSample`. -/
def reqRejected : ReloadRequest :=
  { model_path := "bad"
    lora := []
    state := [] }

/-- A sample reload request all of whose paths resolve under
`bpSample`. -/
def reqResolvable : ReloadRequest :=
  { model_path := "m"
    lora := [{ path := "l" }]
    state := [{ path := "s", name := "n" }] }

/-- C1 witness at concrete inputs: a rejected model path gives 404, a
fully resolvable request gives 200 on reply `true` and 500 on `false`. -/
theorem load_status_codes_witness :
    (loadHandler bpSample reqRejected (some true)).2 = .status 404 ∧
    (loadHandler bpSample reqResolvable (some true)).2 = .status 200 ∧
    (loadHandler bpSample reqResolvable (some false)).2 = .status 500 := by
  refine ⟨(load_status_codes bpSample reqRejected true).1 (Or.inl (by decide)), ?_, ?_⟩
  · exact ((load_status_codes bpSample reqResolvable true).2 (by decide)).1
  · exact ((load_status_codes bpSample reqResolvable false).2 (by decide)).2

/-- C2: each of load, load_state and save sends only path-rewritten
requests — the command carried on the channel holds the
`build_path`-resolved form of the model path and of every LoRA, state
and save path — and whenever any path fails resolution the handler
returns 404 with no command sent. -/
theorem handlers_sanitize_paths (bp : String → Option String) (reqL : ReloadRequest)
    (reqS : StateEntry) (reqV : SaveRequest) (r1 r2 r3 : Option Bool) :
    (∀ r : ReloadRequest, (loadHandler bp reqL r1).1 = some (.reload r) →
      bp reqL.model_path = some r.model_path ∧
        List.Forall₂ (fun x y => bp x.path = some y.path) reqL.lora r.lora ∧
        List.Forall₂ (fun x y => bp x.path = some y.path) reqL.state r.state) ∧
    ((bp reqL.model_path = none ∨ (∃ x ∈ reqL.lora, bp x.path = none) ∨
        (∃ x ∈ reqL.state, bp x.path = none)) →
      loadHandler bp reqL r1 = (none, .status 404)) ∧
    (∀ s : StateEntry, (loadStateHandler bp reqS r2).1 = some (.stateLoad s) →
      bp reqS.path = some s.path) ∧
    (bp reqS.path = none → loadStateHandler bp reqS r2 = (none, .status 404)) ∧
    (∀ s : SaveRequest, (saveHandler bp reqV r3).1 = some (.save s) →
      bp reqV.path = some s.path) ∧
    (bp reqV.path = none → saveHandler bp reqV r3 = (none, .status 404)) := by
  refine ⟨?_, ?_, ?_, ?_, ?_, ?_⟩
  · intro r hr
    cases hs : loadSanitize bp reqL with
    | none => simp [loadHandler, hs] at hr
    | some r0 =>
      simp only [loadHandler, hs, Option.some.injEq, ThreadRequest.reload.injEq] at hr
      subst hr
      rcases loadSanitize_eq_some bp reqL r0 hs with ⟨h1, h2, h3⟩
      exact ⟨h1, rewriteLoraPaths_resolved bp _ _ h2, rewriteStatePaths_resolved bp _ _ h3⟩
  · intro h
    have hn : loadSanitize bp reqL = none := (loadSanitize_eq_none_iff bp reqL).mpr h
    simp [loadHandler, hn]
  · intro s hs
    cases hp : bp reqS.path with
    | none => simp [loadStateHandler, hp] at hs
    | some p =>
      simp only [loadStateHandler, hp, Option.some.injEq, ThreadRequest.stateLoad.injEq] at hs
      subst hs
      simp [hp]
  · intro h
    simp [loadStateHandler, h]
  · intro s hs
    cases hp : bp reqV.path with
    | none => simp [saveHandler, hp] at hs
    | some p =>
      simp only [saveHandler, hp, Option.some.injEq, ThreadRequest.save.injEq] at hs
      subst hs
      simp [hp]
  · intro h
    simp [saveHandler, h]

/-- C2 witness at concrete inputs: the command sent by load carries
the resolved model path, and a rejected save path yields 404 with no
command sent. -/
theorem handlers_sanitize_paths_witness :
    bpSample reqResolvable.model_path = some "root/m" ∧
    saveHandler bpSample { path := "bad" } (some true) = (none, .status 404) := by
  constructor
  · exact ((handlers_sanitize_paths bpSample reqResolvable { path := "p", name := "n" }
      { path := "q" } (some true) (some true) (some true)).1
      { model_path := "root/m", lora := [{ path := "root/l" }],
        state := [{ path := "root/s", name := "n" }] } (by decide)).1
  · exact (handlers_sanitize_paths bpSample reqResolvable { path := "p", name := "n" }
      { path := "bad" } (some true) (some true) (some true)).2.2.2.2.2 (by decide)

/-- C8: once sanitization succeeded, the handlers' `unwrap()` on the
result channel makes them total exactly when the worker replies: a
boolean reply always yields an HTTP status, a closed reply channel
makes each handler panic instead of returning a status. -/
theorem result_channel_unwrap (bp : String → Option String) (reqL : ReloadRequest)
    (reqS : StateEntry) (reqV : SaveRequest)
    (hL : (loadSanitize bp reqL).isSome = true)
    (hS : (bp reqS.path).isSome = true)
    (hV : (bp reqV.path).isSome = true) :
    (∀ b : Bool,
      (∃ c, (loadHandler bp reqL (some b)).2 = .status c) ∧
        (∃ c, (loadStateHandler bp reqS (some b)).2 = .status c) ∧
        (∃ c, (saveHandler bp reqV (some b)).2 = .status c)) ∧
    ((loadHandler bp reqL none).2 = .panicked ∧
      (loadStateHandler bp reqS none).2 = .panicked ∧
      (saveHandler bp reqV none).2 = .panicked) := by
  rcases Option.isSome_iff_exists.mp hL with ⟨rL, hrL⟩
  rcases Option.isSome_iff_exists.mp hS with ⟨pS, hpS⟩
  rcases Option.isSome_iff_exists.mp hV with ⟨pV, hpV⟩
  constructor
  · intro b
    cases b with
    | false =>
      exact ⟨⟨500, by simp [loadHandler, hrL, awaitResult]⟩,
        ⟨500, by simp [loadStateHandler, hpS, awaitResult]⟩,
        ⟨500, by simp [saveHandler, hpV, awaitResult]⟩⟩
    | true =>
      exact ⟨⟨200, by simp [loadHandler, hrL, awaitResult]⟩,
        ⟨200, by simp [loadStateHandler, hpS, awaitResult]⟩,
        ⟨200, by simp [saveHandler, hpV, awaitResult]⟩⟩
  · exact ⟨by simp [loadHandler, hrL, awaitResult],
      by simp [loadStateHandler, hpS, awaitResult],
      by simp [saveHandler, hpV, awaitResult]⟩

/-- C8 witness at concrete inputs: with sanitization succeeding, a
closed result channel (no reply) ends all three handlers in a panic. -/
theorem result_channel_unwrap_witness :
    (loadHandler bpSample { model_path := "m", lora := [], state := [] } none).2 =
        .panicked ∧
    (loadStateHandler bpSample { path := "p", name := "n" } none).2 = .panicked ∧
    (saveHandler bpSample { path := "q" } none).2 = .panicked :=
  (result_channel_unwrap bpSample { model_path := "m", lora := [], state := [] }
    { path := "p", name := "n" } { path := "q" }
    (by decide) (by decide) (by decide)).2

/-- C6: the info handler's response has exactly the fields `reload`,
`model` and `states` (by the shape of `InfoResponse`); `reload` and
`model` are the snapshot's values unchanged, and `states` lists, in
order, the `{id, name}` projection of every registered initial state,
dropping the backing tensor data. -/
theorem info_snapshot_fields (ri : RuntimeInfo) :
    (infoHandler ri).reload = ri.reload ∧
    (infoHandler ri).model = ri.model ∧
    (infoHandler ri).states.length = ri.states.length ∧
    List.Forall₂ (fun (p : StateId × InitState) (s : InitStateInfo) =>
      s.id = p.1 ∧ s.name = p.2.name) ri.states (infoHandler ri).states := by
  refine ⟨rfl, rfl, by simp [infoHandler], ?_⟩
  simp only [infoHandler]
  rw [List.forall₂_map_right_iff]
  exact List.forall₂_same.mpr fun x _ => ⟨rfl, rfl⟩

theorem unloadLoop_absent (d i : Nat) : unloadLoop .absent d i = i := by
  rw [unloadLoop]
  simp [pollLiveness, tryRequestInfoOk]

theorem unloadLoop_present (d i : Nat) (h : i ≤ d) : unloadLoop .present d i = d := by
  have key : ∀ k i, d - i = k → i ≤ d → unloadLoop .present d i = d := by
    intro k
    induction k with
    | zero =>
      intro i hk hi
      have hied : i = d := by omega
      subst hied
      rw [unloadLoop]
      simp [pollLiveness, tryRequestInfoOk]
    | succ k ih =>
      intro i hk hi
      have hlt : i < d := by omega
      rw [unloadLoop]
      simp only [pollLiveness, hlt, if_true, tryRequestInfoOk, dite_true]
      exact ih (i + 1) (by omega) (by omega)
  exact key (d - i) i rfl h

/-- C4: the unload handler sends `Unload` and returns 200 only once
`try_request_info` has failed — the poll at which it stops reports the
worker absent, and every earlier poll reported it alive. -/
theorem unload_returns_after_drain (w : WorkerLiveness) (d : Nat) :
    (unloadHandler w d).sent = .unload ∧
    (unloadHandler w d).code = 200 ∧
    tryRequestInfoOk (pollLiveness w d (unloadHandler w d).pollCount) = false ∧
    (∀ j, j < (unloadHandler w d).pollCount →
      tryRequestInfoOk (pollLiveness w d j) = true) := by
  cases w with
  | absent =>
    refine ⟨rfl, rfl, ?_, ?_⟩
    · simp [unloadHandler, pollLiveness, tryRequestInfoOk]
    · intro j hj
      simp [unloadHandler, unloadLoop_absent] at hj
  | present =>
    have hk : (unloadHandler .present d).pollCount = d := by
      simp [unloadHandler, unloadLoop_present d 0 (Nat.zero_le d)]
    refine ⟨rfl, rfl, ?_, ?_⟩
    · rw [hk]
      simp [pollLiveness, tryRequestInfoOk]
    · intro j hj
      rw [hk] at hj
      simp [pollLiveness, tryRequestInfoOk, hj]

/-- C4 witness: with a present worker draining for 2 polls, the poll
made before the loop stopped still reported the worker alive. -/
theorem unload_returns_after_drain_witness :
    tryRequestInfoOk (pollLiveness .present 2 1) = true := by
  have hk : (unloadHandler .present 2).pollCount = 2 := by
    simp [unloadHandler, unloadLoop_present 2 0 (by omega)]
  exact (unload_returns_after_drain .present 2).2.2.2 1 (by rw [hk]; omega)

/-- C5: unload is idempotent — after one unload the worker is absent,
so a second unload's liveness poll fails immediately (zero successful
polls) and it too returns 200. -/
theorem unload_idempotent (w : WorkerLiveness) (d d' : Nat) :
    (unloadHandler (unloadHandler w d).worker d').code = 200 ∧
    (unloadHandler (unloadHandler w d).worker d').pollCount = 0 := by
  have hw : (unloadHandler w d).worker = .absent := by
    cases w with
    | absent => simp [unloadHandler, pollLiveness]
    | present =>
      simp [unloadHandler, unloadLoop_present d 0 (Nat.zero_le d), pollLiveness]
  rw [hw]
  exact ⟨rfl, by simp [unloadHandler, unloadLoop_absent]⟩

theorem intercalate_go_eq_foldl (acc : String) (l : List String) :
    String.intercalate.go acc "" l = l.foldl (fun r s => r ++ s) acc := by
  induction l generalizing acc with
  | nil => rfl
  | cons b bs ih =>
    show String.intercalate.go (acc ++ "" ++ b) "" bs = _
    rw [String.append_empty, ih]
    rfl

theorem intercalate_empty_eq_join (l : List String) :
    String.intercalate "" l = String.join l := by
  cases l with
  | nil => rfl
  | cons a as =>
    show String.intercalate.go a "" as = _
    rw [intercalate_go_eq_foldl]
    show _ = List.foldl (fun r s => r ++ s) ("" ++ a) as
    rw [String.empty_append]

/-- C3: the GenerateRequest submitted by the embeddings handler has
`max_tokens = 1`, `embed = true`, the request's `embed_layer`, and as
prompt the concatenation (empty-separator join) of the input texts. -/
theorem embeddings_generate_request {α : Type} (ri : RuntimeInfo) (req : EmbeddingRequest)
    (stream : List (Token α)) :
    (embeddingsHandler ri req stream).1 =
      .generate (generateOfEmbedding req) ri.tokenizer ∧
    (generateOfEmbedding req).max_tokens = 1 ∧
    (generateOfEmbedding req).embed = true ∧
    (generateOfEmbedding req).embed_layer = req.embed_layer ∧
    (generateOfEmbedding req).prompt = String.join req.input := by
  refine ⟨rfl, rfl, rfl, rfl, ?_⟩
  exact intercalate_empty_eq_join req.input

theorem embedFold_firstEmbed {α : Type} (s : List (Token α)) (c : TokenCounter)
    (e v : List α) (h : firstEmbed s = some v) : (embedFold s c e).2 = v := by
  induction s generalizing c e with
  | nil => simp [firstEmbed] at h
  | cons t rest ih =>
    cases t with
    | content txt => exact ih c e h
    | stop r ctr => exact ih ctr e h
    | embed w =>
      simp only [firstEmbed, Option.some.injEq] at h
      subst h
      rfl
    | err k => exact ih c e h

theorem embedFold_counter_no_stop {α : Type} (s : List (Token α)) (c : TokenCounter)
    (e : List α) (h : ∀ t ∈ s, t.isStop = false) : (embedFold s c e).1 = c := by
  induction s generalizing c e with
  | nil => rfl
  | cons t rest ih =>
    cases t with
    | content txt => exact ih c e fun u hu => h u (List.mem_cons_of_mem _ hu)
    | stop r ctr => simpa [Token.isStop] using h _ (List.mem_cons_self _ _)
    | embed w => rfl
    | err k => exact ih c e fun u hu => h u (List.mem_cons_of_mem _ hu)

theorem embedFold_no_embed {α : Type} (s : List (Token α)) (c : TokenCounter)
    (e : List α) (h : firstEmbed s = none) : (embedFold s c e).2 = e := by
  induction s generalizing c e with
  | nil => rfl
  | cons t rest ih =>
    cases t with
    | content txt => exact ih c e h
    | stop r ctr => exact ih ctr e h
    | embed w => simp [firstEmbed] at h
    | err k => exact ih c e h

/-- A sample runtime snapshot used by the embedding witnesses. -/
def riSample : RuntimeInfo :=
  { reload := reqResolvable
    model := { payload := "v5" }
    states := []
    tokenizer := 7 }

/-- A sample token stream ending in an `Embed` event. -/
def streamWithEmbed : List (Token Nat) :=
  [.content "a", .embed [1, 2]]

/-- C7: for a terminating token stream, the embeddings response is an
OpenAI-style list: `object = "list"`, `model` the snapshot's model
path string, a single data entry with `object = "embedding"` whose
vector is the first `Embed` event's vector, and the usage counter
collected by the loop. -/
theorem embeddings_response_shape {α : Type} (ri : RuntimeInfo) (req : EmbeddingRequest)
    (stream : List (Token α)) (v : List α) (h : firstEmbed stream = some v) :
    (embeddingsHandler ri req stream).2.object = "list" ∧
    (embeddingsHandler ri req stream).2.model = ri.reload.model_path ∧
    (embeddingsHandler ri req stream).2.counter = (embedFold stream {} []).1 ∧
    ∃ d, (embeddingsHandler ri req stream).2.data = [d] ∧
      d.object = "embedding" ∧ d.embedding = v := by
  refine ⟨rfl, rfl, rfl, ⟨_, rfl, rfl, ?_⟩⟩
  exact embedFold_firstEmbed stream {} [] v h

/-- C7 witness: on a concrete stream whose first `Embed` carries
`[1, 2]`, the single data entry holds exactly that vector. -/
theorem embeddings_response_shape_witness :
    ∃ d, (embeddingsHandler riSample {} streamWithEmbed).2.data = [d] ∧
      d.object = "embedding" ∧ d.embedding = [1, 2] :=
  (embeddings_response_shape riSample {} streamWithEmbed [1, 2] rfl).2.2.2

/-- C9: if the stream's terminal event is an `Embed` and no `Stop`
precedes it, the response's usage counter is the default all-zero
`TokenCounter`: the counter is only recorded from a `Stop` event and
the loop exits at the first `Embed`. -/
theorem embeddings_counter_default {α : Type} (ri : RuntimeInfo) (req : EmbeddingRequest)
    (stream : List (Token α)) (v : List α)
    (_hlast : stream.getLast? = some (.embed v))
    (hnostop : ∀ t ∈ stream, t.isStop = false) :
    (embeddingsHandler ri req stream).2.counter =
      { prompt_tokens := 0, completion_tokens := 0, total_tokens := 0 } := by
  have hc := embedFold_counter_no_stop stream {} ([] : List α) hnostop
  simpa [embeddingsHandler] using hc

/-- C9 witness: a concrete stream of one `Content` and a terminal
`Embed` yields the all-zero usage counter. -/
theorem embeddings_counter_default_witness :
    (embeddingsHandler riSample {} streamWithEmbed).2.counter =
      { prompt_tokens := 0, completion_tokens := 0, total_tokens := 0 } :=
  embeddings_counter_default riSample {} streamWithEmbed [1, 2] rfl (by decide)

/-- C10: whatever the number of input texts (including zero), the
embeddings response has exactly one data entry, with index 0; the
inputs are coalesced into the single `Generate` command, and a stream
with no `Embed` event leaves the entry's vector empty. -/
theorem embeddings_single_entry {α : Type} (ri : RuntimeInfo) (req : EmbeddingRequest)
    (stream : List (Token α)) :
    (embeddingsHandler ri req stream).2.data.length = 1 ∧
    ((embeddingsHandler ri req stream).2.data.map fun d => d.index) = [0] ∧
    (embeddingsHandler ri req stream).1 =
      .generate (generateOfEmbedding req) ri.tokenizer ∧
    (firstEmbed stream = none →
      ((embeddingsHandler ri req stream).2.data.map fun d => d.embedding) = [[]]) := by
  refine ⟨rfl, rfl, rfl, fun h => ?_⟩
  simp [embeddingsHandler, embedFold_no_embed stream {} [] h]

/-- C10 witness: a two-text request over an embed-free stream still
produces one entry, and its vector is empty. -/
theorem embeddings_single_entry_witness :
    ((embeddingsHandler riSample { input := ["a", "b"] }
        ([Token.content "x"] : List (Token Nat))).2.data.map fun d => d.embedding) = [[]] :=
  (embeddings_single_entry riSample { input := ["a", "b"] } [Token.content "x"]).2.2.2 rfl
